import Mathlib

/-
Verification of the osm-fieldwork XLSForm update pipeline
(src/osm_fieldwork/update_xlsform.py), shallowly embedded in Lean 4.

Pandas dataframes are modelled as ordered lists of rows over an ordered list of
column names.  A row is an association list from column name to string value;
a column absent from a row's list reads as pandas NaN.  Python string
operations used by the source (str.lower, str.startswith, str.endswith,
slicing) are modelled character-wise over String.data.
-/

set_option maxRecDepth 8192

/-- Single quote character as a string, used to build literals that contain quotes. -/
def apos : String := ⟨[Char.ofNat 39]⟩

/-- A row of a dataframe: association list from column name to (non-NaN) cell value.
Columns absent from the list read as pandas NaN. -/
abbrev Row := List (String × String)

/-- A pandas DataFrame: ordered column names plus ordered rows. -/
structure DataFrame where
  columns : List String
  rows : List Row
  deriving DecidableEq

/-- An XLSForm: mapping from sheet name to dataframe (a Python dict, modelled as an
association list in insertion order). -/
abbrev Form := List (String × DataFrame)

/-- Python exception kinds raised by the embedded code. -/
inductive PyErr where
  | valueError
  | keyError
  deriving DecidableEq

/-- Whether a Python exception kind is LookupError or one of its subclasses.
In Python's exception hierarchy, KeyError and IndexError derive from LookupError,
while ValueError derives from Exception directly. -/
def is_lookup_error_class : PyErr → Bool
  | .keyError => true
  | .valueError => false

/-- Python str.lower (the column headers here are ASCII). -/
def str_lower (s : String) : String := ⟨s.data.map Char.toLower⟩

/-- Python str.startswith. -/
def starts_with (s p : String) : Bool := p.data.isPrefixOf s.data

/-- Python str.endswith. -/
def ends_with (s p : String) : Bool := p.data.isSuffixOf s.data

/-- Python s[:-1] — the string without its final character. -/
def drop_last_char (s : String) : String := ⟨s.data.dropLast⟩

/-- Python len on a string (characters). -/
def str_len (s : String) : Nat := s.data.length

/-- Drop the first n characters of a string. -/
def str_drop (s : String) (n : Nat) : String := ⟨s.data.drop n⟩

/-- A regex word character (the source's language names are ASCII words). -/
def is_word_char (c : Char) : Bool := c.isAlphanum || c == '_'

/-- Longest run of word characters at the start of the string; models the
capture group of re.match applied at position 0 (empty when there is no match). -/
def word_run (s : String) : String := ⟨s.data.takeWhile is_word_char⟩

/-- Read a cell of a row (pandas row[col]); none is NaN / missing. -/
def row_get (r : Row) (c : String) : Option String := (r.find? (fun p => p.1 == c)).map (·.2)

/-- The name cell of a row. -/
def row_name (r : Row) : Option String := row_get r "name"

/-- Set a cell of a row (pandas row[col] = value): overwrite the column in place,
or append it when absent. -/
def set_cell (r : Row) (c v : String) : Row :=
  if (row_get r c).isSome then r.map (fun p => if p.1 == c then (c, v) else p)
  else r ++ [(c, v)]

/-- Remove a cell (assigning NaN to it). -/
def erase_cell (r : Row) (c : String) : Row := r.filter (fun p => !(p.1 == c))

/-- Set a cell to an optional value; none stores NaN, i.e. erases the cell. -/
def set_cell_opt (r : Row) (c : String) : Option String → Row
  | some v => set_cell r c v
  | none => erase_cell r c

/-- Union of two column lists in first-appearance order (pandas concat alignment). -/
def col_union (a b : List String) : List String := a ++ b.filter (fun c => !(a.contains c))

/-- Ensure a column is present, appending it at the end when missing. -/
def ensure_col (cols : List String) (c : String) : List String :=
  if cols.contains c then cols else cols ++ [c]

/-- Pandas df[col] = scalar: set the column to a constant on every row. -/
def set_column_scalar (t : DataFrame) (c v : String) : DataFrame :=
  ⟨ensure_col t.columns c, t.rows.map (fun r => set_cell r c v)⟩

/-- Look a sheet up in a form (Python dict access). -/
def get_sheet (f : Form) (n : String) : Option DataFrame := (f.find? (fun p => p.1 == n)).map (·.2)

/-- Store a sheet in a form (Python dict assignment: update in place or append). -/
def set_sheet (f : Form) (n : String) (t : DataFrame) : Form :=
  if (get_sheet f n).isSome then f.map (fun p => if p.1 == n then (n, t) else p)
  else f ++ [(n, t)]

/-- Constant FEATURE_COLUMN of update_xlsform.py. -/
def FEATURE_COLUMN : String := "feature"

/-- Constant NAME_COLUMN of update_xlsform.py. -/
def NAME_COLUMN : String := "name"

/-- Constant TYPE_COLUMN of update_xlsform.py. -/
def TYPE_COLUMN : String := "type"

/-- Constant SURVEY_GROUP_NAME of update_xlsform.py. -/
def SURVEY_GROUP_NAME : String := "survey_questions"

/-- Constant DEFAULT_LANGUAGES of update_xlsform.py: recognized language names with
their ISO codes. -/
def DEFAULT_LANGUAGES : List (String × String) :=
  [("english", "en"), ("french", "fr"), ("spanish", "es"), ("swahili", "sw"), ("nepali", "ne")]

/-- The translatable base columns of standardize_language_columns. -/
def base_columns : List String := ["label", "hint", "required_message"]

/-- Look a language name up in DEFAULT_LANGUAGES. -/
def lang_code (lang : String) : Option String :=
  (DEFAULT_LANGUAGES.find? (fun p => p.1 == lang)).map (·.2)

/-- The language-name capture group of re.match applied to a column for one base
column: the word run directly after "base::". -/
def lang_of (col base : String) : String := word_run (str_drop col (str_len base + 2))

/-- One iteration of the inner loop of standardize_language_columns, for a single
base column: compute the running standardized name of column col. -/
def std_col_step (col : String) (acc : String) (base : String) : String :=
  if starts_with col (base ++ "::") then
    match lang_code (lang_of col base) with
    | some code => base ++ "::" ++ lang_of col base ++ "(" ++ code ++ ")"
    | none => acc
  else if col == base then base ++ "::english(en)"
  else acc

/-- Final standardized name of one already-lowercased column after the loop over
base_columns (the iterated in-place renames of the source amount to this fold). -/
def std_col (col : String) : String := base_columns.foldl (std_col_step col) col

/-- Full transformation of a column header by standardize_language_columns:
lowercase, then standardize the translatable-column pattern. -/
def col_transform (col : String) : String := std_col (str_lower col)

/-- Embeds standardize_language_columns: lowercases and standardizes every column
header (rows carry their keys along with the rename). -/
def standardize_language_columns (t : DataFrame) : DataFrame :=
  ⟨t.columns.map col_transform, t.rows.map (fun r => r.map (fun p => (col_transform p.1, p.2)))⟩

/-- The structural row types retained by filter_df_empty_rows even when nameless. -/
def group_markers : List String := ["begin group", "end group", "begin_group", "end_group"]

/-- Whether a row's type cell is one of the four group markers (pandas isin;
a NaN type matches nothing). -/
def is_group_marker (r : Row) : Bool :=
  match row_get r TYPE_COLUMN with
  | some t => group_markers.contains t
  | none => false

/-- Embeds filter_df_empty_rows: drop rows whose name cell is NaN, except group-marker
rows when a type column exists; dataframes without a name column pass through. -/
def filter_df_empty_rows (t : DataFrame) : DataFrame :=
  if t.columns.contains NAME_COLUMN then
    if t.columns.contains TYPE_COLUMN then
      ⟨t.columns, t.rows.filter (fun r => (row_get r NAME_COLUMN).isSome || is_group_marker r)⟩
    else
      ⟨t.columns, t.rows.filter (fun r => (row_get r NAME_COLUMN).isSome)⟩
  else t

/-- Embeds standardize_xlsform_sheets: per-sheet column standardization and empty-name
row filtering; empty sheets (no rows or no columns, pandas df.empty) pass through. -/
def standardize_xlsform_sheets (f : Form) : Form :=
  f.map (fun p =>
    if p.2.rows.isEmpty || p.2.columns.isEmpty then p
    else (p.1, filter_df_empty_rows (standardize_language_columns p.2)))

/-- Embeds create_survey_group: the begin-group dataframe (first component) and the
end-group dataframe (second component).  The begin-group row carries labels in
english, swahili, french and spanish only — the source builds no nepali label. -/
def create_survey_group (name : String) : DataFrame × DataFrame :=
  (⟨["type", "name", "label::english(en)", "label::swahili(sw)", "label::french(fr)",
     "label::spanish(es)", "relevant"],
    [[("type", "begin group"), ("name", name), ("label::english(en)", name),
      ("label::swahili(sw)", name), ("label::french(fr)", name), ("label::spanish(es)", name),
      ("relevant", "($\x7bnew_feature\x7d != " ++ apos ++ apos ++ ") or ($\x7bbuilding_exists\x7d = " ++ apos ++ "yes" ++ apos ++ ")")]]⟩,
   ⟨["type"], [[("type", "end group")]]⟩)

/-- Embeds normalize_with_meta: overwrite a user row with the first meta template row
whose type cell equals the row's type cell (NaN equals nothing, as in pandas ==),
column by column over the meta columns. -/
def normalize_with_meta (meta : DataFrame) (r : Row) : Row :=
  match meta.rows.filter (fun m =>
      match row_get m TYPE_COLUMN, row_get r TYPE_COLUMN with
      | some a, some b => a == b
      | _, _ => false) with
  | [] => r
  | m :: _ => meta.columns.foldl (fun acc c => set_cell_opt acc c (row_get m c)) r

/-- The (list_name, name) merge key of a choices row.  Pandas treats NaN cells as
equal to each other for duplicated/drop_duplicates, matching Option equality here. -/
def choice_key (r : Row) : Option String × Option String :=
  (row_get r "list_name", row_get r NAME_COLUMN)

/-- Keep-first deduplication on the (list_name, name) key, with the keys seen so far. -/
def drop_duplicates_go (seen : List (Option String × Option String)) :
    List Row → List Row
  | [] => []
  | r :: rs =>
    if seen.contains (choice_key r) then drop_duplicates_go seen rs
    else r :: drop_duplicates_go (choice_key r :: seen) rs

/-- Pandas drop_duplicates(subset=["list_name", name], keep first occurrence). -/
def drop_duplicates (rows : List Row) : List Row := drop_duplicates_go [] rows

/-- The row types exempt from the survey-mode duplicate-name filter. -/
def end_group_markers : List String := ["end group", "end_group"]

/-- Whether a row's type cell is an end-group marker. -/
def is_end_group (r : Row) : Bool :=
  match row_get r TYPE_COLUMN with
  | some t => end_group_markers.contains t
  | none => false

/-- Embeds merge_dataframes.  Choice mode (the user sheet has a list_name column):
concatenate mandatory, user, digitisation and drop duplicate (list_name, name) pairs
keeping the first occurrence.  Survey mode: meta-normalize the user rows, drop user
rows whose name collides with a mandatory or digitisation name (end-group rows are
exempt), and bracket the user rows between the survey_questions group wrapper. -/
def merge_dataframes (meta mandatory user digitisation : DataFrame) : DataFrame :=
  if user.columns.contains "list_name" then
    ⟨col_union (col_union mandatory.columns user.columns) digitisation.columns,
     drop_duplicates (mandatory.rows ++ user.rows ++ digitisation.rows)⟩
  else
    let user_rows := user.rows.map (normalize_with_meta meta)
    let duplicate_fields : List (Option String) :=
      (user_rows.map row_name).filter (fun n =>
        (mandatory.rows.map row_name).contains n
          || (digitisation.rows.map row_name).contains n)
    let filtered := user_rows.filter (fun r =>
      !(duplicate_fields.contains (row_name r)) || is_end_group r)
    let sg := create_survey_group SURVEY_GROUP_NAME
    ⟨col_union mandatory.columns (col_union sg.1.columns
       (col_union (col_union user.columns meta.columns)
         (col_union sg.2.columns digitisation.columns))),
     mandatory.rows ++ sg.1.rows ++ filtered ++ sg.2.rows ++ digitisation.rows⟩

/-- Index of the first row satisfying a predicate (the [0] of the source's
df.index[mask].tolist()). -/
def find_row_idx (p : Row → Bool) : List Row → Option Nat
  | [] => none
  | r :: rs => if p r then some 0 else (find_row_idx p rs).map (· + 1)

/-- The select_one_from_file question dataframe built by append_select_one_from_file_row.
Labels exist in english, swahili, french and spanish only — no nepali label. -/
def additional_row (entity : String) : DataFrame :=
  ⟨["type", "name", "label::english(en)", "appearance", "label::swahili(sw)",
    "label::french(fr)", "label::spanish(es)"],
   [[("type", "select_one_from_file " ++ entity ++ ".csv"), ("name", entity),
     ("label::english(en)", entity), ("appearance", "map"), ("label::swahili(sw)", entity),
     ("label::french(fr)", entity), ("label::spanish(es)", entity)]]⟩

/-- The geometry calculation dataframe built by append_select_one_from_file_row; its
name cell is the fixed string additional_geometry for every entity. -/
def coordinates_row (entity : String) : DataFrame :=
  ⟨["type", "name", "calculation", "label::english(en)", "label::swahili(sw)",
    "label::french(fr)", "label::spanish(es)"],
   [[("type", "calculate"), ("name", "additional_geometry"),
     ("calculation", "instance(" ++ apos ++ entity ++ apos ++ ")/root/item[name=$\x7b" ++ entity ++ "\x7d]/geometry"),
     ("label::english(en)", "additional_geometry"), ("label::swahili(sw)", "additional_geometry"),
     ("label::french(fr)", "additional_geometry"), ("label::spanish(es)", "additional_geometry")]]⟩

/-- Embeds append_select_one_from_file_row.  Reading the name column of a dataframe
without one raises KeyError (a LookupError subclass); an absent feature row raises
ValueError; otherwise the question row and the calculation row are inserted directly
after the first row named feature. -/
def append_select_one_from_file_row (df : DataFrame) (entity : String) :
    Except PyErr DataFrame :=
  if !(df.columns.contains NAME_COLUMN) then .error .keyError
  else
    match find_row_idx (fun r => row_name r == some FEATURE_COLUMN) df.rows with
    | none => .error .valueError
    | some i =>
      .ok ⟨col_union (col_union df.columns (additional_row entity).columns)
             (coordinates_row entity).columns,
           df.rows.take (i + 1) ++ (additional_row entity).rows
             ++ (coordinates_row entity).rows ++ df.rows.drop (i + 1)⟩

/-- The additional-entities loop at the end of append_mandatory_fields: insert the
rows for each entity name in list order, stopping at the first error. -/
def insert_entities (df : DataFrame) : List String → Except PyErr DataFrame
  | [] => .ok df
  | e :: es =>
    match append_select_one_from_file_row df e with
    | .error err => .error err
    | .ok df2 => insert_entities df2 es

/-- Both rows inserted for one entity, in insertion order. -/
def entity_pair (e : String) : List Row := (additional_row e).rows ++ (coordinates_row e).rows

/-- The inserted rows of a list of entities in the order they end up after the anchor:
each insertion lands directly after the anchor row, so later entities precede
earlier ones. -/
def rev_pairs : List String → List Row
  | [] => []
  | e :: es => rev_pairs es ++ entity_pair e

/-- The canonical template tables imported from osm_fieldwork.form_components;
the pipeline state they form is threaded explicitly to model Python module globals. -/
structure Templates where
  survey_df : DataFrame
  choices_df : DataFrame
  digitisation_df : DataFrame
  digitisation_choices_df : DataFrame
  entities_df : DataFrame
  settings_df : DataFrame
  meta_df : DataFrame
  deriving DecidableEq

/-- The default empty choices sheet created when the input has none. -/
def default_choices_df : DataFrame := ⟨["list_name", "name", "label::english(en)"], []⟩

/-- The user survey sheet after standardization (present whenever the input had one,
since standardization preserves sheet names). -/
def user_survey_table (f : Form) : DataFrame :=
  (get_sheet (standardize_xlsform_sheets f) "survey").getD ⟨[], []⟩

/-- The survey-sheet merge step of append_mandatory_fields. -/
def merged_survey (tpl : Templates) (f : Form) : DataFrame :=
  merge_dataframes tpl.meta_df tpl.survey_df (user_survey_table f) tpl.digitisation_df

/-- The literal once(...) calculation written for the form_category row. -/
def once_expr (cat : String) : String := "once(" ++ apos ++ cat ++ apos ++ ")"

/-- The form_category hardcoding step: when at least one row is named form_category,
set the calculation cell of every such row (pandas .loc boolean-mask assignment). -/
def stamp_form_category (t : DataFrame) (cat : String) : DataFrame :=
  if t.rows.any (fun r => row_name r == some "form_category") then
    ⟨ensure_col t.columns "calculation",
     t.rows.map (fun r =>
       if row_name r == some "form_category" then set_cell r "calculation" (once_expr cat)
       else r)⟩
  else t

/-- The settings stamping step: version, form_id and form_title column assignments. -/
def stamp_settings (t : DataFrame) (version form_id form_title : String) : DataFrame :=
  set_column_scalar (set_column_scalar (set_column_scalar t "version" version)
    "form_id" form_id) "form_title" form_title

/-- Embeds append_mandatory_fields.  The identifier generator and the clock are passed
as the fresh_id and now arguments (spec collaborators).  Because the source writes
custom_sheets["settings"] = settings_df and then assigns columns on it, the stamping
mutates the shared settings template in place; the returned Templates value is the
post-call state of those module-level globals. -/
def append_mandatory_fields (tpl : Templates) (custom : Form) (form_category : String)
    (additional_entities : List String) (existing_id : Option String)
    (fresh_id now : String) : Except PyErr ((String × Form) × Templates) :=
  if (get_sheet custom "survey").isNone then .error .valueError
  else
    let sheets := standardize_xlsform_sheets custom
    let cat := if ends_with form_category "s" then drop_last_char form_category
               else form_category
    let survey1 := stamp_form_category (merged_survey tpl custom) cat
    let user_choices := (get_sheet sheets "choices").getD default_choices_df
    let choices1 := merge_dataframes tpl.meta_df tpl.choices_df user_choices
      tpl.digitisation_choices_df
    let xform_id := existing_id.getD fresh_id
    let settings1 := stamp_settings tpl.settings_df now xform_id cat
    match insert_entities survey1 additional_entities with
    | .error e => .error e
    | .ok survey2 =>
      .ok ((xform_id,
            set_sheet (set_sheet (set_sheet (set_sheet sheets "survey" survey2)
              "choices" choices1) "entities" tpl.entities_df) "settings" settings1),
           { tpl with settings_df := settings1 })

/-- Whether a run of append_mandatory_fields succeeded. -/
def run_ok {α : Type} (r : Except PyErr α) : Bool :=
  match r with
  | .ok _ => true
  | .error _ => false

/-- The output form of a successful run (empty on error). -/
def out_form (r : Except PyErr ((String × Form) × Templates)) : Form :=
  match r with
  | .ok o => o.1.2
  | .error _ => []

/-- The template state after a run; on the error paths of the model the pre-call
state is returned. -/
def templates_after (tpl : Templates) (r : Except PyErr ((String × Form) × Templates)) :
    Templates :=
  match r with
  | .ok o => o.2
  | .error _ => tpl

/-- Rows of a named sheet of a form (empty when the sheet is absent). -/
def sheet_rows (f : Form) (n : String) : List Row :=
  ((get_sheet f n).getD ⟨[], []⟩).rows

/-- The non-NaN name cells of the survey sheet, in row order. -/
def survey_names (f : Form) : List String := (sheet_rows f "survey").filterMap row_name

/-- Modelled from the spec: the canonical template tables of
osm_fieldwork.form_components (mandatory survey and choices, digitisation fields and
choices, entities, settings, meta) are not under src/ — the spec treats them as
opaque constant tables.  This is a minimal concrete instance consistent with the
spec: the mandatory survey template provides the form_category row and the feature
anchor row, the choices templates carry a (list_name, name) key, and the settings
template is a one-row sheet. -/
def example_templates : Templates where
  survey_df := ⟨["type", "name"],
    [[("type", "note"), ("name", "form_category")],
     [("type", "geopoint"), ("name", "feature")]]⟩
  choices_df := ⟨["list_name", "name"], [[("list_name", "yes_no"), ("name", "yes")]]⟩
  digitisation_df := ⟨["type", "name"], [[("type", "text"), ("name", "status")]]⟩
  digitisation_choices_df := ⟨["list_name", "name"], []⟩
  entities_df := ⟨["list_name", "label"], [[("list_name", "features"), ("label", "f")]]⟩
  settings_df := ⟨["form_title", "version"], [[("form_title", "t0"), ("version", "v0")]]⟩
  meta_df := ⟨["type", "name"], []⟩

/-- A small user form with one survey question, used for the concrete runs. -/
def example_form : Form :=
  [("survey", ⟨["type", "name"], [[("type", "text"), ("name", "q1")]]⟩)]

/-- Concrete run with two additional entities (the duplicated-geometry scenario). -/
def run_two_entities : Except PyErr ((String × Form) × Templates) :=
  append_mandatory_fields example_templates example_form "buildings"
    ["roads", "waterpoints"] none "form-id-1" "2026-01-01 00:00:00"

/-- Concrete run with no additional entities (baseline for the insertion count). -/
def run_no_entities : Except PyErr ((String × Form) × Templates) :=
  append_mandatory_fields example_templates example_form "buildings"
    [] none "form-id-1" "2026-01-01 00:00:00"

/-- A survey dataframe with a name column but no row named feature. -/
def no_feature_df : DataFrame := ⟨["type", "name"], [[("type", "text"), ("name", "x")]]⟩

/-- A survey dataframe whose single row has the empty string as its name. -/
def empty_name_df : DataFrame := ⟨["name", "type"], [[("name", ""), ("type", "text")]]⟩

/-- A survey dataframe with a feature anchor row followed by one ordinary row. -/
def anchor_df : DataFrame :=
  ⟨["type", "name"], [[("type", "geopoint"), ("name", "feature")], [("type", "text"), ("name", "x")]]⟩

/-- The survey-name sequence after inserting entities e1 then e2 after the anchor. -/
def anchor_names_after : List String :=
  match insert_entities anchor_df ["e1", "e2"] with
  | .ok t => t.rows.filterMap row_name
  | .error _ => []

/-- Concrete mandatory choices for the choice-mode merge runs. -/
def c2_mandatory : DataFrame :=
  ⟨["list_name", "name"], [[("list_name", "L"), ("name", "a")]]⟩

/-- Concrete user choices sheet sharing the pair (L, a) with the mandatory sheet. -/
def c2_user : DataFrame :=
  ⟨["list_name", "name", "label"],
   [[("list_name", "L"), ("name", "a"), ("label", "user a")],
    [("list_name", "L"), ("name", "b"), ("label", "user b")]]⟩

/-- Concrete digitisation choices sharing the pair (L, b) with the user sheet. -/
def c2_digitisation : DataFrame :=
  ⟨["list_name", "name"], [[("list_name", "L"), ("name", "b")], [("list_name", "M"), ("name", "a")]]⟩

/-- An empty meta template (survey-mode meta normalization never fires on it). -/
def empty_meta : DataFrame := ⟨["type", "name"], []⟩

/-- Concrete mandatory survey rows for the survey-mode merge witness. -/
def c1_mandatory : DataFrame := ⟨["type", "name"], [[("type", "note"), ("name", "m1")]]⟩

/-- Concrete user survey rows for the survey-mode merge witness. -/
def c1_user : DataFrame :=
  ⟨["type", "name"], [[("type", "text"), ("name", "u1")], [("type", "text"), ("name", "m1")]]⟩

/-- Concrete digitisation survey rows for the survey-mode merge witness. -/
def c1_digitisation : DataFrame := ⟨["type", "name"], [[("type", "text"), ("name", "d1")]]⟩

/-! Helper lemmas about the embedded primitives. -/

theorem contains_iff_mem {α : Type} [BEq α] [LawfulBEq α] (l : List α) (a : α) :
    l.contains a = true ↔ a ∈ l := List.elem_iff

theorem find_row_idx_eq_none_iff (p : Row → Bool) (l : List Row) :
    find_row_idx p l = none ↔ ∀ r ∈ l, p r = false := by
  induction l with
  | nil => simp [find_row_idx]
  | cons r rs ih =>
    by_cases h : p r
    · simp [find_row_idx, h]
    · simp only [Bool.not_eq_true] at h
      simp [find_row_idx, h, ih]

theorem find?_key_map_set (c v : String) (r : Row) :
    List.find? (fun q => q.1 == c) (r.map (fun p => if p.1 == c then (c, v) else p))
      = (List.find? (fun q => q.1 == c) r).map (fun _ => (c, v)) := by
  induction r with
  | nil => rfl
  | cons p r ih =>
    simp only [List.map_cons]
    cases hb : (p.1 == c) with
    | true =>
      rw [if_pos rfl, List.find?_cons, List.find?_cons]
      simp [hb]
    | false =>
      rw [if_neg (by simp), List.find?_cons, List.find?_cons]
      simp only [hb]
      exact ih

theorem row_get_set_cell_self (r : Row) (c v : String) :
    row_get (set_cell r c v) c = some v := by
  unfold set_cell
  by_cases h : (row_get r c).isSome
  · rw [if_pos h]
    unfold row_get at h ⊢
    rw [find?_key_map_set]
    rcases hf : List.find? (fun q => q.1 == c) r with _ | p
    · rw [hf] at h; simp at h
    · simp [hf]
  · rw [if_neg h]
    unfold row_get at h ⊢
    rw [List.find?_append]
    rcases hf : List.find? (fun q => q.1 == c) r with _ | p
    · rw [hf]; simp [List.find?, Option.or]
    · rw [hf] at h; simp at h

/-- C5 counterexample: on a survey table that has a name column but no row named
feature, append_select_one_from_file_row raises ValueError, which is not in the
LookupError class hierarchy — contradicting the claim that the failure is a
LookupError-class error. -/
theorem C5_counterexample :
    append_select_one_from_file_row no_feature_df "roads" = .error .valueError
    ∧ is_lookup_error_class .valueError = false := by
  exact ⟨rfl, rfl⟩

/-- C5 (amended): for every survey table with a name column, the entity-reference
insertion fails — with a ValueError, not a LookupError-class error — exactly when no
row is named feature, and succeeds (does not raise) when such a row exists. -/
theorem C5_anchor_error_theorem (df : DataFrame) (e : String)
    (hcol : df.columns.contains NAME_COLUMN = true) :
    ((∀ r ∈ df.rows, row_name r ≠ some FEATURE_COLUMN) →
      append_select_one_from_file_row df e = .error .valueError
        ∧ is_lookup_error_class .valueError = false)
    ∧ ((∃ r ∈ df.rows, row_name r = some FEATURE_COLUMN) →
      ∃ t, append_select_one_from_file_row df e = .ok t) := by
  constructor
  · intro h
    have hnone : find_row_idx (fun r => row_name r == some FEATURE_COLUMN) df.rows = none := by
      rw [find_row_idx_eq_none_iff]
      intro r hr
      exact beq_eq_false_iff_ne.mpr (h r hr)
    refine ⟨?_, rfl⟩
    unfold append_select_one_from_file_row
    rw [if_neg (by rw [hcol]; simp), hnone]
  · rintro ⟨r, hr, hname⟩
    have hne : find_row_idx (fun r => row_name r == some FEATURE_COLUMN) df.rows ≠ none := by
      intro heq
      rw [find_row_idx_eq_none_iff] at heq
      have := heq r hr
      simp [hname] at this
    rcases hi : find_row_idx (fun r => row_name r == some FEATURE_COLUMN) df.rows with _ | i
    · exact absurd hi hne
    · refine ⟨⟨col_union (col_union df.columns (additional_row e).columns)
          (coordinates_row e).columns,
        df.rows.take (i + 1) ++ (additional_row e).rows ++ (coordinates_row e).rows
          ++ df.rows.drop (i + 1)⟩, ?_⟩
      unfold append_select_one_from_file_row
      rw [if_neg (by rw [hcol]; simp), hi]

/-- C5 witness: the amended theorem applied to a concrete table without a feature
row, showing the concrete ValueError. -/
theorem C5_anchor_error_witness :
    (no_feature_df.columns.contains NAME_COLUMN = true)
    ∧ (append_select_one_from_file_row no_feature_df "roads" = .error .valueError
        ∧ is_lookup_error_class .valueError = false) :=
  ⟨by decide, (C5_anchor_error_theorem no_feature_df "roads" (by decide)).1 (by decide)⟩

/-- C6 counterexample: nepali is one of the five default languages, yet the
begin-group wrapper row, the inserted entity question row and the inserted
calculation row all lack a nepali label cell — contradicting the claim that every
generated label-carrying row carries labels in all 5 default languages. -/
theorem C6_counterexample :
    ("nepali", "ne") ∈ DEFAULT_LANGUAGES
    ∧ row_get (((create_survey_group SURVEY_GROUP_NAME).1.rows).headD []) "label::nepali(ne)" = none
    ∧ row_get ((additional_row "roads").rows.headD []) "label::nepali(ne)" = none
    ∧ row_get ((coordinates_row "roads").rows.headD []) "label::nepali(ne)" = none
    ∧ row_get (((create_survey_group SURVEY_GROUP_NAME).1.rows).headD []) "label::english(en)"
        = some SURVEY_GROUP_NAME := by
  exact ⟨by decide, rfl, rfl, rfl, rfl⟩

/-- C6 (amended): the begin-group wrapper row, the inserted entity question row and
the inserted calculation row carry label translations in four of the five default
languages (english, french, spanish, swahili — no nepali label is generated); the
begin-group row carries the stated relevant expression, and the end-group row is
exactly the single-cell row with type = end group. -/
theorem C6_label_languages_theorem (nm e : String) :
    (row_get (((create_survey_group nm).1.rows).headD []) "label::english(en)" = some nm
      ∧ row_get (((create_survey_group nm).1.rows).headD []) "label::french(fr)" = some nm
      ∧ row_get (((create_survey_group nm).1.rows).headD []) "label::spanish(es)" = some nm
      ∧ row_get (((create_survey_group nm).1.rows).headD []) "label::swahili(sw)" = some nm
      ∧ row_get (((create_survey_group nm).1.rows).headD []) "label::nepali(ne)" = none
      ∧ row_get (((create_survey_group nm).1.rows).headD []) "relevant"
          = some ("($\x7bnew_feature\x7d != " ++ apos ++ apos ++ ") or ($\x7bbuilding_exists\x7d = "
              ++ apos ++ "yes" ++ apos ++ ")")
      ∧ (create_survey_group nm).2.rows = [[("type", "end group")]])
    ∧ (row_get ((additional_row e).rows.headD []) "type"
          = some ("select_one_from_file " ++ e ++ ".csv")
      ∧ row_get ((additional_row e).rows.headD []) "name" = some e
      ∧ row_get ((additional_row e).rows.headD []) "appearance" = some "map"
      ∧ row_get ((additional_row e).rows.headD []) "label::english(en)" = some e
      ∧ row_get ((additional_row e).rows.headD []) "label::french(fr)" = some e
      ∧ row_get ((additional_row e).rows.headD []) "label::spanish(es)" = some e
      ∧ row_get ((additional_row e).rows.headD []) "label::swahili(sw)" = some e
      ∧ row_get ((additional_row e).rows.headD []) "label::nepali(ne)" = none)
    ∧ (row_get ((coordinates_row e).rows.headD []) "type" = some "calculate"
      ∧ row_get ((coordinates_row e).rows.headD []) "name" = some "additional_geometry"
      ∧ row_get ((coordinates_row e).rows.headD []) "label::english(en)"
          = some "additional_geometry"
      ∧ row_get ((coordinates_row e).rows.headD []) "label::french(fr)"
          = some "additional_geometry"
      ∧ row_get ((coordinates_row e).rows.headD []) "label::spanish(es)"
          = some "additional_geometry"
      ∧ row_get ((coordinates_row e).rows.headD []) "label::swahili(sw)"
          = some "additional_geometry"
      ∧ row_get ((coordinates_row e).rows.headD []) "label::nepali(ne)" = none) := by
  refine ⟨⟨rfl, rfl, rfl, rfl, rfl, rfl, rfl⟩, ⟨rfl, rfl, rfl, rfl, rfl, rfl, rfl, rfl⟩,
    ⟨rfl, rfl, rfl, rfl, rfl, rfl, rfl⟩⟩

/-- C7 counterexample: a row whose name cell holds the empty string is retained by
filter_df_empty_rows (pandas notna is true for the empty string), even though its
type is not a group marker — contradicting the claim that rows with empty name are
removed. -/
theorem C7_counterexample :
    [("name", ""), ("type", "text")] ∈ (filter_df_empty_rows empty_name_df).rows
    ∧ row_get [("name", ""), ("type", "text")] NAME_COLUMN = some ""
    ∧ is_group_marker [("name", ""), ("type", "text")] = false := by
  exact ⟨by decide, rfl, rfl⟩

/-- C7 (amended): for every table with a name column, normalization removes exactly
the rows whose name cell is absent (NaN) — rows whose name is the empty string are
retained, since only missing values are filtered — except group-marker rows (begin
group, end group, begin_group, end_group), retained whenever a type column exists;
tables without a name column, and empty tables, pass through unchanged, and the
columns are never altered. -/
theorem C7_empty_row_filter_theorem (t : DataFrame) :
    ((filter_df_empty_rows t).columns = t.columns)
    ∧ (t.columns.contains NAME_COLUMN = false → filter_df_empty_rows t = t)
    ∧ (t.rows = [] → (filter_df_empty_rows t).rows = [])
    ∧ (t.columns.contains NAME_COLUMN = true →
        (∀ r ∈ t.rows, (row_get r NAME_COLUMN).isSome = true →
            r ∈ (filter_df_empty_rows t).rows)
        ∧ (∀ r ∈ t.rows, row_get r NAME_COLUMN = some "" →
            r ∈ (filter_df_empty_rows t).rows)
        ∧ (t.columns.contains TYPE_COLUMN = true →
            (∀ r ∈ t.rows, is_group_marker r = true → r ∈ (filter_df_empty_rows t).rows)
            ∧ (∀ r ∈ t.rows, row_get r NAME_COLUMN = none → is_group_marker r = false →
                r ∉ (filter_df_empty_rows t).rows))
        ∧ (t.columns.contains TYPE_COLUMN = false →
            ∀ r ∈ t.rows, row_get r NAME_COLUMN = none →
              r ∉ (filter_df_empty_rows t).rows)) := by
  unfold filter_df_empty_rows
  by_cases hn : t.columns.contains NAME_COLUMN = true
  · rw [if_pos hn]
    by_cases ht : t.columns.contains TYPE_COLUMN = true
    · rw [if_pos ht]
      refine ⟨rfl, ?_, ?_, ?_⟩
      · intro h
        rw [h] at hn
        exact Bool.noConfusion hn
      · intro h
        simp [h]
      · intro _
        refine ⟨?_, ?_, ?_, ?_⟩
        · intro r hr hsome
          exact List.mem_filter.mpr ⟨hr, by simp [hsome]⟩
        · intro r hr hempty
          exact List.mem_filter.mpr ⟨hr, by simp [hempty]⟩
        · intro _
          refine ⟨?_, ?_⟩
          · intro r hr hmark
            exact List.mem_filter.mpr ⟨hr, by simp [hmark]⟩
          · intro r _ hnone hmark hmem
            have := (List.mem_filter.mp hmem).2
            simp [hnone, hmark] at this
        · intro htf
          rw [htf] at ht
          exact absurd ht Bool.noConfusion
    · rw [if_neg ht]
      have ht' : t.columns.contains TYPE_COLUMN = false := by
        cases h : t.columns.contains TYPE_COLUMN
        · rfl
        · exact absurd h ht
      refine ⟨rfl, ?_, ?_, ?_⟩
      · intro h
        rw [h] at hn
        exact Bool.noConfusion hn
      · intro h
        simp [h]
      · intro _
        refine ⟨?_, ?_, ?_, ?_⟩
        · intro r hr hsome
          exact List.mem_filter.mpr ⟨hr, hsome⟩
        · intro r hr hempty
          exact List.mem_filter.mpr ⟨hr, by simp [hempty]⟩
        · intro htt
          rw [htt] at ht'
          exact Bool.noConfusion ht'
        · intro _ r _ hnone hmem
          have := (List.mem_filter.mp hmem).2
          simp [hnone] at this
  · rw [if_neg hn]
    have hn' : t.columns.contains NAME_COLUMN = false := by
      cases h : t.columns.contains NAME_COLUMN
      · rfl
      · exact absurd h hn
    refine ⟨rfl, fun _ => rfl, ?_, ?_⟩
    · intro h
      rw [h]
    · intro h
      rw [h] at hn'
      exact Bool.noConfusion hn'

/-- C7 witness: the amended theorem applied to a concrete table — the empty-string
named row is retained. -/
theorem C7_empty_row_filter_witness :
    (empty_name_df.columns.contains NAME_COLUMN = true)
    ∧ [("name", ""), ("type", "text")] ∈ (filter_df_empty_rows empty_name_df).rows :=
  ⟨by decide,
    ((C7_empty_row_filter_theorem empty_name_df).2.2.2 (by decide)).2.1
      [("name", ""), ("type", "text")] (by decide) (by decide)⟩

/-- A base column whose pattern does not fire leaves the running standardized name
unchanged: the column neither equals the base nor carries a recognized language. -/
theorem std_col_step_id (col acc base : String) (hb : col ≠ base)
    (hl : starts_with col (base ++ "::") = true → lang_code (lang_of col base) = none) :
    std_col_step col acc base = acc := by
  unfold std_col_step
  cases hs : starts_with col (base ++ "::") with
  | true =>
    rw [if_pos rfl, hl hs]
  | false =>
    rw [if_neg (by simp), if_neg (by simp [hb])]

/-- C8: a column literally named label (likewise hint, required_message) becomes
label::english(en); the column Label::French becomes label::french(fr) via the
language lookup; and any lowercase translation column whose language name is not in
the recognized lookup is left entirely unchanged. -/
theorem C8_language_columns_theorem (c : String)
    (h1 : str_lower c = c)
    (h2 : ∀ b ∈ base_columns, c ≠ b)
    (h3 : ∀ b ∈ base_columns, starts_with c (b ++ "::") = true →
        lang_code (lang_of c b) = none) :
    col_transform "label" = "label::english(en)"
    ∧ col_transform "hint" = "hint::english(en)"
    ∧ col_transform "required_message" = "required_message::english(en)"
    ∧ col_transform "Label::French" = "label::french(fr)"
    ∧ col_transform c = c := by
  refine ⟨by decide, by decide, by decide, by decide, ?_⟩
  unfold col_transform
  rw [h1]
  unfold std_col base_columns
  simp only [List.foldl]
  rw [std_col_step_id c c "label" (h2 "label" (by decide)) (h3 "label" (by decide)),
    std_col_step_id c c "hint" (h2 "hint" (by decide)) (h3 "hint" (by decide)),
    std_col_step_id c c "required_message" (h2 "required_message" (by decide))
      (h3 "required_message" (by decide))]

/-- C8 witness: the theorem applied at the unrecognized-language column
label::german, which the normalization leaves unchanged. -/
theorem C8_language_columns_witness :
    (str_lower "label::german" = "label::german")
    ∧ col_transform "label::german" = "label::german" :=
  ⟨by decide,
    ( C8_language_columns_theorem "label::german" (by decide) (by decide) (by decide)).2.2.2.2⟩

/-- The first feature-row index of a list that decomposes as prefix, anchor, suffix
with no anchor in the prefix is the prefix length. -/
theorem find_row_idx_append_cons (p : Row → Bool) (pre : List Row) (feat : Row)
    (post : List Row) (hpre : ∀ r ∈ pre, p r = false) (hf : p feat = true) :
    find_row_idx p (pre ++ feat :: post) = some pre.length := by
  induction pre with
  | nil => simp [find_row_idx, hf]
  | cons a l ih =>
    have ha : p a = false := hpre a (by simp)
    have ih' := ih (fun r hr => hpre r (by simp [hr]))
    simp [find_row_idx, ha, ih']

theorem take_append_cons (pre : List Row) (x : Row) (post : List Row) :
    (pre ++ x :: post).take (pre.length + 1) = pre ++ [x] := by
  induction pre with
  | nil => simp
  | cons a l ih => simp [ih]

theorem drop_append_cons (pre : List Row) (x : Row) (post : List Row) :
    (pre ++ x :: post).drop (pre.length + 1) = post := by
  induction pre with
  | nil => simp
  | cons a l ih => simp [ih]

/-- A column list extended by col_union still contains every column it contained. -/
theorem col_union_contains_left (a b : List String) (c : String)
    (h : a.contains c = true) : (col_union a b).contains c = true := by
  rw [contains_iff_mem] at h ⊢
  exact List.mem_append_left _ h

/-- One entity insertion on a table decomposed around its first feature row places
the question row and the calculation row directly after the anchor. -/
theorem append_row_decomp (cols : List String) (pre : List Row) (feat : Row)
    (post : List Row) (e : String) (hcol : cols.contains NAME_COLUMN = true)
    (hpre : ∀ r ∈ pre, (row_name r == some FEATURE_COLUMN) = false)
    (hf : (row_name feat == some FEATURE_COLUMN) = true) :
    append_select_one_from_file_row ⟨cols, pre ++ feat :: post⟩ e =
      .ok ⟨col_union (col_union cols (additional_row e).columns) (coordinates_row e).columns,
           pre ++ feat :: (entity_pair e ++ post)⟩ := by
  unfold append_select_one_from_file_row
  rw [if_neg (by rw [show DataFrame.columns ⟨cols, pre ++ feat :: post⟩ = cols from rfl, hcol]; simp)]
  rw [show DataFrame.rows ⟨cols, pre ++ feat :: post⟩ = pre ++ feat :: post from rfl]
  rw [find_row_idx_append_cons _ pre feat post hpre hf]
  dsimp only
  rw [take_append_cons, drop_append_cons]
  simp [entity_pair, List.append_assoc]

/-- Folding entity insertions over a decomposed table accumulates the inserted row
pairs directly after the anchor, with later entities ahead of earlier ones. -/
theorem insert_entities_decomp (es : List String) (cols : List String) (pre : List Row)
    (feat : Row) (post : List Row) (hcol : cols.contains NAME_COLUMN = true)
    (hpre : ∀ r ∈ pre, (row_name r == some FEATURE_COLUMN) = false)
    (hf : (row_name feat == some FEATURE_COLUMN) = true) :
    ∃ cols2, (insert_entities ⟨cols, pre ++ feat :: post⟩ es
        = .ok ⟨cols2, pre ++ feat :: (rev_pairs es ++ post)⟩)
      ∧ cols2.contains NAME_COLUMN = true := by
  induction es generalizing cols post with
  | nil => exact ⟨cols, by simp [insert_entities, rev_pairs], hcol⟩
  | cons e es ih =>
    have hstep := append_row_decomp cols pre feat post e hcol hpre hf
    have hcol2 : (col_union (col_union cols (additional_row e).columns)
        (coordinates_row e).columns).contains NAME_COLUMN = true :=
      col_union_contains_left _ _ _ (col_union_contains_left _ _ _ hcol)
    obtain ⟨cols2, hrun, hc2⟩ := ih (col_union (col_union cols (additional_row e).columns)
      (coordinates_row e).columns) (entity_pair e ++ post) hcol2
    refine ⟨cols2, ?_, hc2⟩
    unfold insert_entities
    rw [hstep]
    dsimp only
    rw [hrun, show rev_pairs (e :: es) = rev_pairs es ++ entity_pair e from rfl,
      List.append_assoc]

/-- C4 (amended): invoking the entity-reference insertion once per name accumulates
the inserted row pairs directly after the anchor row in REVERSE list order: each
insertion re-locates the anchor and places its pair immediately after it, so the
rows of later entities appear before the rows of earlier entities; all rows before
and after the anchor keep their relative order. -/
theorem C4_insertion_order_theorem (df : DataFrame) (pre : List Row) (feat : Row)
    (post : List Row) (es : List String)
    (hdf : df.rows = pre ++ feat :: post)
    (hcol : df.columns.contains NAME_COLUMN = true)
    (hpre : ∀ r ∈ pre, row_name r ≠ some FEATURE_COLUMN)
    (hf : row_name feat = some FEATURE_COLUMN) :
    ∃ t, insert_entities df es = .ok t
      ∧ t.rows = pre ++ feat :: (rev_pairs es ++ post) := by
  obtain ⟨cols, rows⟩ := df
  simp only at hdf hcol
  subst hdf
  obtain ⟨cols2, hrun, _⟩ := insert_entities_decomp es cols pre feat post hcol
    (fun r hr => beq_eq_false_iff_ne.mpr (hpre r hr)) (by simp [hf])
  exact ⟨_, hrun, rfl⟩

/-- C4 witness: the amended theorem at a concrete anchored table and two entities. -/
theorem C4_insertion_order_witness :
    ∃ t, insert_entities anchor_df ["e1", "e2"] = .ok t
      ∧ t.rows = [] ++ [("type", "geopoint"), ("name", "feature")]
          :: (rev_pairs ["e1", "e2"] ++ [[("type", "text"), ("name", "x")]]) :=
  C4_insertion_order_theorem anchor_df [] [("type", "geopoint"), ("name", "feature")]
    [[("type", "text"), ("name", "x")]] ["e1", "e2"] rfl (by decide) (by decide) (by decide)

/-- C4 counterexample: inserting e1 then e2 yields e2's rows BEFORE e1's rows (the
name sequence places e2 at position 1 and e1 only at position 3), contradicting the
claim that the first entity's rows appear before the second entity's rows. -/
theorem C4_counterexample :
    anchor_names_after
      = ["feature", "e2", "additional_geometry", "e1", "additional_geometry", "x"]
    ∧ anchor_names_after[1]? = some "e2"
    ∧ anchor_names_after[3]? = some "e1" := by
  exact ⟨rfl, rfl, rfl⟩

/-- A row kept by the deduplication was in the input and its key was unseen. -/
theorem mem_drop_duplicates_go (seen : List (Option String × Option String))
    (l : List Row) (r : Row) (h : r ∈ drop_duplicates_go seen l) :
    r ∈ l ∧ seen.contains (choice_key r) = false := by
  induction l generalizing seen with
  | nil => simp [drop_duplicates_go] at h
  | cons a l ih =>
    unfold drop_duplicates_go at h
    by_cases hs : seen.contains (choice_key a) = true
    · rw [if_pos hs] at h
      obtain ⟨h1, h2⟩ := ih seen h
      exact ⟨List.mem_cons_of_mem _ h1, h2⟩
    · rw [if_neg hs] at h
      rcases List.mem_cons.mp h with rfl | h
      · refine ⟨List.mem_cons_self _ _, ?_⟩
        cases hcc : seen.contains (choice_key r)
        · rfl
        · exact absurd hcc hs
      · obtain ⟨h1, h2⟩ := ih (choice_key a :: seen) h
        simp only [List.contains_cons, Bool.or_eq_false_iff] at h2
        exact ⟨List.mem_cons_of_mem _ h1, h2.2⟩

/-- The deduplicated list has pairwise distinct keys. -/
theorem pairwise_drop_duplicates_go (seen : List (Option String × Option String))
    (l : List Row) :
    List.Pairwise (fun a b => choice_key a ≠ choice_key b) (drop_duplicates_go seen l) := by
  induction l generalizing seen with
  | nil => simp [drop_duplicates_go]
  | cons a l ih =>
    unfold drop_duplicates_go
    by_cases hs : seen.contains (choice_key a) = true
    · rw [if_pos hs]
      exact ih seen
    · rw [if_neg hs]
      refine List.Pairwise.cons ?_ (ih (choice_key a :: seen))
      intro b hb hkey
      have := (mem_drop_duplicates_go _ _ _ hb).2
      rw [← hkey] at this
      simp at this

/-- Deduplication preserves the first row found for every key not yet seen. -/
theorem drop_duplicates_go_find? (seen : List (Option String × Option String))
    (l : List Row) (k : Option String × Option String) (hk : seen.contains k = false) :
    (drop_duplicates_go seen l).find? (fun r => choice_key r == k)
      = l.find? (fun r => choice_key r == k) := by
  induction l generalizing seen with
  | nil => rfl
  | cons a l ih =>
    unfold drop_duplicates_go
    by_cases hs : seen.contains (choice_key a) = true
    · rw [if_pos hs]
      have hak : (choice_key a == k) = false := by
        cases hak : (choice_key a == k)
        · rfl
        · have heq : choice_key a = k := eq_of_beq hak
          rw [heq] at hs
          rw [hs] at hk
          exact Bool.noConfusion hk
      have e2 : List.find? (fun r => choice_key r == k) (a :: l)
          = List.find? (fun r => choice_key r == k) l :=
        List.find?_cons_of_neg _ (by simp [hak])
      rw [e2, ih seen hk]
    · rw [if_neg hs]
      cases hak : (choice_key a == k) with
      | true =>
        have e1 : List.find? (fun r => choice_key r == k)
            (a :: drop_duplicates_go (choice_key a :: seen) l) = some a :=
          List.find?_cons_of_pos _ hak
        have e2 : List.find? (fun r => choice_key r == k) (a :: l) = some a :=
          List.find?_cons_of_pos _ hak
        rw [e1, e2]
      | false =>
        have e1 : List.find? (fun r => choice_key r == k)
            (a :: drop_duplicates_go (choice_key a :: seen) l)
            = List.find? (fun r => choice_key r == k) (drop_duplicates_go (choice_key a :: seen) l) :=
          List.find?_cons_of_neg _ (by simp [hak])
        have e2 : List.find? (fun r => choice_key r == k) (a :: l)
            = List.find? (fun r => choice_key r == k) l :=
          List.find?_cons_of_neg _ (by simp [hak])
        rw [e1, e2]
        refine ih (choice_key a :: seen) ?_
        simp only [List.contains_cons, Bool.or_eq_false_iff]
        refine ⟨?_, hk⟩
        cases hx : (k == choice_key a)
        · rfl
        · have heq : k = choice_key a := eq_of_beq hx
          rw [heq] at hak
          simp at hak

/-- In a list with pairwise distinct keys, a member is found by searching its key. -/
theorem find?_key_of_mem (l : List Row) (r : Row)
    (hp : List.Pairwise (fun a b => choice_key a ≠ choice_key b) l) (hr : r ∈ l) :
    l.find? (fun x => choice_key x == choice_key r) = some r := by
  induction l with
  | nil => simp at hr
  | cons a l ih =>
    rcases List.mem_cons.mp hr with rfl | hr
    · rw [List.find?_cons_of_pos _ (by simp)]
    · have hne : choice_key a ≠ choice_key r := (List.pairwise_cons.mp hp).1 r hr
      rw [List.find?_cons_of_neg _ (by simp [hne]), ih (List.pairwise_cons.mp hp).2 hr]

/-- C2: in choice mode (the user sheet has a list_name column) the merged output has
no two rows with the same (list_name, name) pair; for every key the merged output
keeps exactly the first occurrence of the concatenation [mandatory, user,
digitisation], so a mandatory row wins over a user row and a user row wins over a
digitisation (supplementary) row. -/
theorem C2_choices_dedup_theorem (meta mandatory user digitisation : DataFrame)
    (hlist : user.columns.contains "list_name" = true) :
    List.Pairwise (fun a b => choice_key a ≠ choice_key b)
      (merge_dataframes meta mandatory user digitisation).rows
    ∧ (∀ k : Option String × Option String,
        (merge_dataframes meta mandatory user digitisation).rows.find?
            (fun r => choice_key r == k)
          = (mandatory.rows ++ user.rows ++ digitisation.rows).find?
            (fun r => choice_key r == k))
    ∧ (∀ r ∈ (merge_dataframes meta mandatory user digitisation).rows,
        (∃ r2 ∈ mandatory.rows, choice_key r2 = choice_key r) → r ∈ mandatory.rows)
    ∧ (∀ r ∈ (merge_dataframes meta mandatory user digitisation).rows,
        (∀ r2 ∈ mandatory.rows, choice_key r2 ≠ choice_key r) →
          (∃ r2 ∈ user.rows, choice_key r2 = choice_key r) → r ∈ user.rows) := by
  have hrows : (merge_dataframes meta mandatory user digitisation).rows
      = drop_duplicates (mandatory.rows ++ user.rows ++ digitisation.rows) := by
    unfold merge_dataframes
    rw [if_pos hlist]
  rw [hrows]
  have hpair := pairwise_drop_duplicates_go []
    (mandatory.rows ++ user.rows ++ digitisation.rows)
  have hfind : ∀ k, (drop_duplicates
        (mandatory.rows ++ user.rows ++ digitisation.rows)).find?
        (fun r => choice_key r == k)
      = (mandatory.rows ++ user.rows ++ digitisation.rows).find?
        (fun r => choice_key r == k) :=
    fun k => drop_duplicates_go_find? [] _ k rfl
  refine ⟨hpair, hfind, ?_, ?_⟩
  · rintro r hr ⟨r2, hr2, hkey⟩
    have h1 : (mandatory.rows ++ user.rows ++ digitisation.rows).find?
        (fun x => choice_key x == choice_key r) = some r := by
      rw [← hfind (choice_key r)]
      exact find?_key_of_mem _ r hpair hr
    have h2 : (mandatory.rows.find? (fun x => choice_key x == choice_key r)).isSome = true :=
      List.find?_isSome.mpr ⟨r2, hr2, by simp [hkey]⟩
    rw [List.find?_append, List.find?_append] at h1
    rcases hm : mandatory.rows.find? (fun x => choice_key x == choice_key r) with _ | rm
    · rw [hm] at h2
      exact Bool.noConfusion h2
    · rw [hm] at h1
      simp only [Option.or] at h1
      have hrm : rm = r := Option.some.inj h1
      rw [← hrm]
      exact List.mem_of_find?_eq_some hm
  · rintro r hr hnone ⟨r2, hr2, hkey⟩
    have h1 : (mandatory.rows ++ user.rows ++ digitisation.rows).find?
        (fun x => choice_key x == choice_key r) = some r := by
      rw [← hfind (choice_key r)]
      exact find?_key_of_mem _ r hpair hr
    have hm : mandatory.rows.find? (fun x => choice_key x == choice_key r) = none :=
      List.find?_eq_none.mpr (fun x hx => by simp [hnone x hx])
    have h2 : (user.rows.find? (fun x => choice_key x == choice_key r)).isSome = true :=
      List.find?_isSome.mpr ⟨r2, hr2, by simp [hkey]⟩
    rw [List.find?_append, List.find?_append, hm] at h1
    rcases hu : user.rows.find? (fun x => choice_key x == choice_key r) with _ | ru
    · rw [hu] at h2
      exact Bool.noConfusion h2
    · rw [hu] at h1
      simp only [Option.or] at h1
      have hru : ru = r := Option.some.inj h1
      rw [← hru]
      exact List.mem_of_find?_eq_some hu

/-- C2 witness: the theorem at concrete sheets where (L, a) occurs in both mandatory
and user rows and (L, b) occurs in both user and digitisation rows. -/
theorem C2_choices_dedup_witness :
    (c2_user.columns.contains "list_name" = true)
    ∧ List.Pairwise (fun a b => choice_key a ≠ choice_key b)
        (merge_dataframes empty_meta c2_mandatory c2_user c2_digitisation).rows
    ∧ ((merge_dataframes empty_meta c2_mandatory c2_user c2_digitisation).rows.find?
          (fun r => choice_key r == (some "L", some "a"))
        = (c2_mandatory.rows ++ c2_user.rows ++ c2_digitisation.rows).find?
          (fun r => choice_key r == (some "L", some "a"))) :=
  ⟨by decide,
    (C2_choices_dedup_theorem empty_meta c2_mandatory c2_user c2_digitisation (by decide)).1,
    (C2_choices_dedup_theorem empty_meta c2_mandatory c2_user c2_digitisation
      (by decide)).2.1 (some "L", some "a")⟩

/-- The survey-mode merge output rows, written out: mandatory rows, the begin-group
row, the collision-filtered meta-normalized user rows, the end-group row, then the
digitisation rows. -/
theorem merge_dataframes_survey_rows (meta mandatory user digitisation : DataFrame)
    (hb : user.columns.contains "list_name" = false) :
    (merge_dataframes meta mandatory user digitisation).rows
      = mandatory.rows
        ++ (create_survey_group SURVEY_GROUP_NAME).1.rows
        ++ ((user.rows.map (normalize_with_meta meta)).filter (fun r =>
              !((((user.rows.map (normalize_with_meta meta)).map row_name).filter (fun n =>
                  (mandatory.rows.map row_name).contains n
                    || (digitisation.rows.map row_name).contains n)).contains (row_name r))
                || is_end_group r))
        ++ (create_survey_group SURVEY_GROUP_NAME).2.rows
        ++ digitisation.rows := by
  unfold merge_dataframes
  rw [if_neg (by intro h; rw [hb] at h; exact Bool.noConfusion h)]

/-- C1 (amended): for every survey-mode merge of valid inputs — mandatory and
digitisation rows all carry distinct non-empty names and do not collide with each
other, the meta-normalized user rows have no duplicate names, nameless user rows are
group markers, end-group user rows are nameless, and no input row is named
survey_questions — the merged survey has pairwise-distinct names, and only rows of
the group-marker types may be nameless.  (The inserted per-entity calculation rows
named additional_geometry are NOT covered: with two or more additional entities the
assembled survey duplicates that name.) -/
theorem C1_survey_uniqueness_theorem
    (meta mandatory user digitisation : DataFrame)
    (hb : user.columns.contains "list_name" = false)
    (hM : (mandatory.rows.filterMap row_name).Nodup)
    (hMn : ∀ r ∈ mandatory.rows, ∃ s, row_name r = some s ∧ s ≠ "")
    (hD : (digitisation.rows.filterMap row_name).Nodup)
    (hDn : ∀ r ∈ digitisation.rows, ∃ s, row_name r = some s ∧ s ≠ "")
    (hMD : ∀ r ∈ mandatory.rows, ∀ r2 ∈ digitisation.rows, row_name r ≠ row_name r2)
    (hU : ((user.rows.map (normalize_with_meta meta)).filterMap row_name).Nodup)
    (hUmark : ∀ r ∈ user.rows.map (normalize_with_meta meta), row_name r = none →
        is_group_marker r = true)
    (hUend : ∀ r ∈ user.rows.map (normalize_with_meta meta), is_end_group r = true →
        row_name r = none)
    (hSGM : ∀ r ∈ mandatory.rows, row_name r ≠ some SURVEY_GROUP_NAME)
    (hSGU : ∀ r ∈ user.rows.map (normalize_with_meta meta),
        row_name r ≠ some SURVEY_GROUP_NAME)
    (hSGD : ∀ r ∈ digitisation.rows, row_name r ≠ some SURVEY_GROUP_NAME) :
    ((merge_dataframes meta mandatory user digitisation).rows.filterMap row_name).Nodup
    ∧ (∀ r ∈ (merge_dataframes meta mandatory user digitisation).rows,
        row_name r = none → is_group_marker r = true) := by
  rw [merge_dataframes_survey_rows meta mandatory user digitisation hb]
  set U : List Row := user.rows.map (normalize_with_meta meta) with hUeq
  set dup : List (Option String) := (U.map row_name).filter (fun n =>
    (mandatory.rows.map row_name).contains n
      || (digitisation.rows.map row_name).contains n) with hdupeq
  set F : List Row := U.filter (fun r => !(dup.contains (row_name r)) || is_end_group r)
    with hFeq
  -- Named user rows that survive the filter collide with neither mandatory nor
  -- digitisation names.
  have hFnames : ∀ s : String, s ∈ F.filterMap row_name →
      s ∉ mandatory.rows.filterMap row_name ∧ s ∉ digitisation.rows.filterMap row_name := by
    intro s hsF
    obtain ⟨r, hrF, hrs⟩ := List.mem_filterMap.mp hsF
    rw [hFeq] at hrF
    obtain ⟨hrU, hpred⟩ := List.mem_filter.mp hrF
    cases hend : is_end_group r with
    | true =>
      have := hUend r hrU hend
      rw [this] at hrs
      exact Option.noConfusion hrs
    | false =>
      rw [hend, Bool.or_false, Bool.not_eq_true'] at hpred
      constructor
      · intro hsM
        obtain ⟨m, hm, hms⟩ := List.mem_filterMap.mp hsM
        have hmem : dup.contains (row_name r) = true := by
          rw [hdupeq, contains_iff_mem]
          refine List.mem_filter.mpr ⟨List.mem_map_of_mem row_name hrU, ?_⟩
          have : row_name r ∈ mandatory.rows.map row_name := by
            rw [hrs]
            exact List.mem_map.mpr ⟨m, hm, hms⟩
          rw [(contains_iff_mem _ _).mpr this, Bool.true_or]
        rw [hmem] at hpred
        exact Bool.noConfusion hpred
      · intro hsD
        obtain ⟨d, hd, hds⟩ := List.mem_filterMap.mp hsD
        have hmem : dup.contains (row_name r) = true := by
          rw [hdupeq, contains_iff_mem]
          refine List.mem_filter.mpr ⟨List.mem_map_of_mem row_name hrU, ?_⟩
          have : row_name r ∈ digitisation.rows.map row_name := by
            rw [hrs]
            exact List.mem_map.mpr ⟨d, hd, hds⟩
          rw [(contains_iff_mem _ _).mpr this, Bool.or_true]
        rw [hmem] at hpred
        exact Bool.noConfusion hpred
  have hFsubU : ∀ s : String, s ∈ F.filterMap row_name → s ∈ U.filterMap row_name := by
    intro s hs
    obtain ⟨r, hrF, hrs⟩ := List.mem_filterMap.mp hs
    rw [hFeq] at hrF
    exact List.mem_filterMap.mpr ⟨r, (List.mem_filter.mp hrF).1, hrs⟩
  have hFN : (F.filterMap row_name).Nodup := by
    rw [hFeq]
    exact hU.sublist ((List.filter_sublist _).filterMap row_name)
  constructor
  · -- the appended name lists, segment by segment
    simp only [List.filterMap_append]
    have hbgn : (create_survey_group SURVEY_GROUP_NAME).1.rows.filterMap row_name
        = [SURVEY_GROUP_NAME] := by decide
    have hegn : (create_survey_group SURVEY_GROUP_NAME).2.rows.filterMap row_name
        = ([] : List String) := by decide
    rw [hbgn, hegn]
    simp only [List.append_assoc, List.singleton_append, List.append_nil]
    -- goal: Nodup (namesM ++ sq :: (namesF ++ namesD))
    rw [List.nodup_append]
    refine ⟨hM, ?_, ?_⟩
    · refine List.Pairwise.cons ?_ ?_
      · intro b hbmem heq
        rw [← heq] at hbmem
        rcases List.mem_append.mp hbmem with h | h
        · obtain ⟨r, hrF, hrs⟩ := List.mem_filterMap.mp h
          rw [hFeq] at hrF
          exact hSGU r (List.mem_filter.mp hrF).1 hrs
        · obtain ⟨r, hr2, hrs⟩ := List.mem_filterMap.mp h
          exact hSGD r hr2 hrs
      · exact hFN.append hD (fun s hsF hsD => (hFnames s hsF).2 hsD)
    · intro s hsM hsmem
      rcases List.mem_cons.mp hsmem with rfl | h
      · obtain ⟨m, hm, hms⟩ := List.mem_filterMap.mp hsM
        exact hSGM m hm hms
      · rcases List.mem_append.mp h with h | h
        · exact (hFnames s h).1 hsM
        · obtain ⟨m, hm, hms⟩ := List.mem_filterMap.mp hsM
          obtain ⟨d, hd, hds⟩ := List.mem_filterMap.mp h
          exact hMD m hm d hd (by rw [hms, hds])
  · -- nameless rows are group markers
    intro r hr hnone
    simp only [List.append_assoc, List.mem_append] at hr
    rcases hr with h | h | h | h | h
    · obtain ⟨s, hs, _⟩ := hMn r h
      rw [hnone] at hs
      exact Option.noConfusion hs
    · have : r = ((create_survey_group SURVEY_GROUP_NAME).1.rows.headD []) := by
        cases List.mem_singleton.mp h
        rfl
      rw [this] at hnone
      exact Option.noConfusion hnone
    · rw [hFeq] at h
      exact hUmark r (List.mem_filter.mp h).1 hnone
    · have : r = ((create_survey_group SURVEY_GROUP_NAME).2.rows.headD []) := by
        cases List.mem_singleton.mp h
        rfl
      rw [this]
      decide
    · obtain ⟨s, hs, _⟩ := hDn r h
      rw [hnone] at hs
      exact Option.noConfusion hs

/-- C1 witness: the amended merge uniqueness at concrete valid sheets (the user row
named m1 collides with the mandatory row and is dropped; the merged names are
distinct). -/
theorem C1_survey_uniqueness_witness :
    (c1_user.columns.contains "list_name" = false)
    ∧ ((merge_dataframes empty_meta c1_mandatory c1_user c1_digitisation).rows.filterMap
        row_name).Nodup :=
  ⟨by decide,
    (C1_survey_uniqueness_theorem empty_meta c1_mandatory c1_user c1_digitisation
      (by decide) (by decide) (by decide) (by decide) (by decide) (by decide) (by decide)
      (by decide) (by decide) (by decide) (by decide) (by decide)).1⟩

/-- C1 counterexample: assembling with additional_entities = [roads, waterpoints]
succeeds and yields a survey sheet with TWO distinct rows sharing the non-empty name
additional_geometry, both of type calculate (not group markers) — so the claimed
uniqueness fails on assembled forms with two or more additional entities. -/
theorem C1_counterexample :
    run_ok run_two_entities = true
    ∧ ((sheet_rows (out_form run_two_entities) "survey").filter
        (fun r => row_name r == some "additional_geometry")).length = 2
    ∧ (∀ r ∈ (sheet_rows (out_form run_two_entities) "survey").filter
        (fun r => row_name r == some "additional_geometry"),
        row_get r TYPE_COLUMN = some "calculate")
    ∧ ("additional_geometry" ≠ "") := by
  refine ⟨by decide, by decide, by decide, by decide⟩

/-- C3: the concrete run with additional_entities = [roads, waterpoints] inserts
exactly 2 rows per entity (4 in total), but the inserted question rows keep the
plural names roads and waterpoints — the trailing s is never stripped, although the
docstring of append_mandatory_fields and the test test_add_extra_select_from_file
both promise singularized names road and waterpoint. -/
theorem C3_entity_insertion_theorem :
    run_ok run_two_entities = true
    ∧ survey_names (out_form run_two_entities)
        = ["form_category", "feature", "waterpoints", "additional_geometry",
           "roads", "additional_geometry", "survey_questions", "q1", "status"]
    ∧ (sheet_rows (out_form run_two_entities) "survey").length
        = (sheet_rows (out_form run_no_entities) "survey").length + 4
    ∧ "roads" ∈ survey_names (out_form run_two_entities)
    ∧ "waterpoints" ∈ survey_names (out_form run_two_entities)
    ∧ "road" ∉ survey_names (out_form run_two_entities)
    ∧ "waterpoint" ∉ survey_names (out_form run_two_entities) := by
  refine ⟨by decide, by decide, by decide, by decide, by decide, by decide, by decide⟩

/-- C9 (amended): a successful assembly leaves the mandatory survey, choices,
digitisation, digitisation-choices, entities and meta templates untouched, but the
settings stamping is performed on the shared settings template itself (the output
sheet merely aliases it), so after the call the module-level settings template holds
the stamped version, form_id and form_title values. -/
theorem C9_template_mutation_theorem (tpl : Templates) (custom : Form) (cat : String)
    (es : List String) (eid : Option String) (fid now : String)
    (hok : run_ok (append_mandatory_fields tpl custom cat es eid fid now) = true) :
    templates_after tpl (append_mandatory_fields tpl custom cat es eid fid now)
      = { tpl with
          settings_df := (stamp_settings tpl.settings_df now (eid.getD fid)
            (if ends_with cat "s" then drop_last_char cat else cat)) } := by
  unfold append_mandatory_fields at hok ⊢
  by_cases h1 : (get_sheet custom "survey").isNone
  · rw [if_pos h1] at hok
    exact absurd hok (by simp [run_ok])
  · rw [if_neg h1] at hok ⊢
    dsimp only at hok ⊢
    cases hins : insert_entities (stamp_form_category (merged_survey tpl custom)
        (if ends_with cat "s" then drop_last_char cat else cat)) es with
    | error e =>
      rw [hins] at hok
      exact absurd hok (by simp [run_ok])
    | ok survey2 =>
      rfl

/-- C9 witness: the amended theorem at the concrete run — the template state after
the call carries the stamped settings sheet and nothing else changed. -/
theorem C9_template_mutation_witness :
    (run_ok run_no_entities = true)
    ∧ templates_after example_templates run_no_entities
        = { example_templates with
            settings_df := (stamp_settings example_templates.settings_df
              "2026-01-01 00:00:00" ((none : Option String).getD "form-id-1")
              (if ends_with "buildings" "s" then drop_last_char "buildings"
               else "buildings")) } :=
  ⟨by decide,
    C9_template_mutation_theorem example_templates example_form "buildings" [] none
      "form-id-1" "2026-01-01 00:00:00" (by decide)⟩

/-- C9 counterexample: a successful assembly mutates the shared canonical settings
template: the template observed after the call differs from the one before (its
version, form_id and form_title columns were overwritten through the alias created
by assigning it into the output form). -/
theorem C9_counterexample :
    run_ok run_no_entities = true
    ∧ (templates_after example_templates run_no_entities).settings_df
        ≠ example_templates.settings_df
    ∧ (templates_after example_templates run_no_entities).settings_df
        = stamp_settings example_templates.settings_df "2026-01-01 00:00:00"
            "form-id-1" "building" := by
  refine ⟨by decide, by decide, by decide⟩

/-- Generic assoc-list update: looking the updated key up behind the update map finds
the freshly stored pair. -/
theorem find?_assoc_map_set {β : Type} (n : String) (t : β) (l : List (String × β)) :
    List.find? (fun q => q.1 == n) (l.map (fun p => if p.1 == n then (n, t) else p))
      = (List.find? (fun q => q.1 == n) l).map (fun _ => (n, t)) := by
  induction l with
  | nil => rfl
  | cons p l ih =>
    simp only [List.map_cons]
    cases hb : (p.1 == n) with
    | true =>
      rw [if_pos rfl, List.find?_cons, List.find?_cons]
      simp [hb]
    | false =>
      rw [if_neg (by simp), List.find?_cons, List.find?_cons]
      simp only [hb]
      exact ih

/-- Generic assoc-list update: looking a DIFFERENT key up is unaffected. -/
theorem find?_assoc_map_set_ne {β : Type} (n n2 : String) (t : β)
    (l : List (String × β)) (h : (n2 == n) = false) :
    List.find? (fun q => q.1 == n2) (l.map (fun p => if p.1 == n then (n, t) else p))
      = List.find? (fun q => q.1 == n2) l := by
  induction l with
  | nil => rfl
  | cons p l ih =>
    simp only [List.map_cons]
    cases hb : (p.1 == n) with
    | true =>
      have hp : p.1 = n := eq_of_beq hb
      have hnn2 : (n == n2) = false := by
        cases hx : (n == n2)
        · rfl
        · exact absurd (eq_of_beq hx).symm (beq_eq_false_iff_ne.mp h)
      have hpn2 : (p.1 == n2) = false := by rw [hp]; exact hnn2
      rw [if_pos rfl, List.find?_cons, List.find?_cons]
      simp only [hnn2, hpn2]
      exact ih
    | false =>
      rw [if_neg (by simp), List.find?_cons, List.find?_cons]
      cases hpn2 : (p.1 == n2)
      · simp only
        exact ih
      · simp only
  
/-- Storing a sheet and reading the same sheet name yields the stored dataframe. -/
theorem get_set_sheet_self (f : Form) (n : String) (t : DataFrame) :
    get_sheet (set_sheet f n t) n = some t := by
  unfold set_sheet
  by_cases h : (get_sheet f n).isSome
  · rw [if_pos h]
    unfold get_sheet at h ⊢
    rw [find?_assoc_map_set]
    rcases hf : List.find? (fun q => q.1 == n) f with _ | p
    · rw [hf] at h
      simp at h
    · simp [hf]
  · rw [if_neg h]
    unfold get_sheet at h ⊢
    rw [List.find?_append]
    rcases hf : List.find? (fun q => q.1 == n) f with _ | p
    · rw [hf]
      simp [List.find?, Option.or]
    · rw [hf] at h
      simp at h

/-- Storing a sheet leaves lookups of other sheet names unchanged. -/
theorem get_set_sheet_ne (f : Form) (n n2 : String) (t : DataFrame)
    (h : (n2 == n) = false) :
    get_sheet (set_sheet f n t) n2 = get_sheet f n2 := by
  unfold set_sheet
  by_cases hs : (get_sheet f n).isSome
  · rw [if_pos hs]
    unfold get_sheet
    rw [find?_assoc_map_set_ne _ _ _ _ h]
  · rw [if_neg hs]
    unfold get_sheet
    rw [List.find?_append]
    have hone : List.find? (fun q => q.1 == n2) [(n, t)] = none := by
      have hnn2 : (n == n2) = false := by
        cases hx : (n == n2)
        · rfl
        · exact absurd (eq_of_beq hx).symm (beq_eq_false_iff_ne.mp h)
      simp [List.find?, hnn2]
    rw [hone]
    cases List.find? (fun q => q.1 == n2) f
    · rfl
    · rfl

/-- Reading the survey sheet of the final sheet-assignment chain of
append_mandatory_fields yields the inserted survey dataframe. -/
theorem get_sheet_final_survey (f : Form) (sv ch en st : DataFrame) :
    get_sheet (set_sheet (set_sheet (set_sheet (set_sheet f "survey" sv) "choices" ch)
      "entities" en) "settings" st) "survey" = some sv := by
  rw [get_set_sheet_ne _ "settings" "survey" st (by decide),
    get_set_sheet_ne _ "entities" "survey" en (by decide),
    get_set_sheet_ne _ "choices" "survey" ch (by decide),
    get_set_sheet_self]

/-- Reading the settings sheet of the final sheet-assignment chain yields the
stamped settings dataframe. -/
theorem get_sheet_final_settings (f : Form) (sv ch en st : DataFrame) :
    get_sheet (set_sheet (set_sheet (set_sheet (set_sheet f "survey" sv) "choices" ch)
      "entities" en) "settings" st) "settings" = some st := by
  rw [get_set_sheet_self]

/-- Every row of a successfully returned insertion result is an original row or one
of the two rows inserted for the entity. -/
theorem mem_append_row_cases (df : DataFrame) (e : String) (t : DataFrame)
    (happ : append_select_one_from_file_row df e = .ok t) :
    ∀ r ∈ t.rows, r ∈ df.rows ∨ r ∈ entity_pair e := by
  unfold append_select_one_from_file_row at happ
  by_cases hc : df.columns.contains NAME_COLUMN = true
  · rw [if_neg (by rw [hc]; simp)] at happ
    cases hfi : find_row_idx (fun r => row_name r == some FEATURE_COLUMN) df.rows with
    | none =>
      rw [hfi] at happ
      exact absurd happ (by simp)
    | some i =>
      rw [hfi] at happ
      have ht := Except.ok.inj happ
      intro r hr
      rw [← ht] at hr
      simp only [List.mem_append] at hr
      rcases hr with ((h | h) | h) | h
      · exact Or.inl (List.mem_of_mem_take h)
      · exact Or.inr (List.mem_append_left _ h)
      · exact Or.inr (List.mem_append_right _ h)
      · exact Or.inl (List.mem_of_mem_drop h)
  · have hc2 : df.columns.contains NAME_COLUMN = false := by
      cases hx : df.columns.contains NAME_COLUMN
      · rfl
      · exact absurd hx hc
    rw [if_pos (by rw [hc2]; rfl)] at happ
    exact absurd happ (by simp)

/-- The form_category calculation survives the entity-insertion loop: inserted rows
are named after the entity or additional_geometry, never form_category. -/
theorem insert_entities_preserves_calc (v : String) : ∀ (es : List String),
    (∀ e ∈ es, e ≠ "form_category") → ∀ (df t : DataFrame),
    (∀ r ∈ df.rows, row_name r = some "form_category" →
        row_get r "calculation" = some v) →
    insert_entities df es = .ok t →
    ∀ r ∈ t.rows, row_name r = some "form_category" →
      row_get r "calculation" = some v := by
  intro es
  induction es with
  | nil =>
    intro _ df t hdf hok
    have := Except.ok.inj hok
    rw [← this]
    exact hdf
  | cons e es ih =>
    intro hes df t hdf hok
    unfold insert_entities at hok
    cases happ : append_select_one_from_file_row df e with
    | error err =>
      rw [happ] at hok
      exact absurd hok (by simp)
    | ok df2 =>
      rw [happ] at hok
      refine ih (fun x hx => hes x (List.mem_cons_of_mem _ hx)) df2 t ?_ hok
      intro r hr hname
      rcases mem_append_row_cases df e df2 happ r hr with h | h
      · exact hdf r h hname
      · simp only [entity_pair, additional_row, coordinates_row, List.mem_append,
          List.mem_singleton] at h
        rcases h with rfl | rfl
        · have hrn : row_name [("type", "select_one_from_file " ++ e ++ ".csv"), ("name", e),
              ("label::english(en)", e), ("appearance", "map"), ("label::swahili(sw)", e),
              ("label::french(fr)", e), ("label::spanish(es)", e)] = some e := rfl
          rw [hrn] at hname
          exact absurd (Option.some.inj hname) (hes e (List.mem_cons_self e es))
        · have hrn : row_name [("type", "calculate"), ("name", "additional_geometry"),
              ("calculation", "instance(" ++ apos ++ e ++ apos
                ++ ")/root/item[name=$\x7b" ++ e ++ "\x7d]/geometry"),
              ("label::english(en)", "additional_geometry"),
              ("label::swahili(sw)", "additional_geometry"),
              ("label::french(fr)", "additional_geometry"),
              ("label::spanish(es)", "additional_geometry")]
              = some "additional_geometry" := rfl
          rw [hrn] at hname
          exact absurd (Option.some.inj hname) (by decide)

/-- All rows of a stamped settings dataframe carry the stamped form title. -/
theorem stamp_settings_form_title (t : DataFrame) (a b c : String) :
    ∀ r ∈ (stamp_settings t a b c).rows, row_get r "form_title" = some c := by
  intro r hr
  unfold stamp_settings set_column_scalar at hr
  simp only at hr
  obtain ⟨r0, _, heq⟩ := List.mem_map.mp hr
  rw [← heq]
  exact row_get_set_cell_self r0 "form_title" c

/-- Every row of the form_category stamping that is named form_category carries the
once(...) calculation. -/
theorem stamp_form_category_calc (t : DataFrame) (cat : String)
    (hfc : t.rows.any (fun r => row_name r == some "form_category") = true) :
    ∀ r ∈ (stamp_form_category t cat).rows, row_name r = some "form_category" →
      row_get r "calculation" = some (once_expr cat) := by
  unfold stamp_form_category
  rw [if_pos hfc]
  intro r hr hname
  simp only at hr
  obtain ⟨r0, _, heq⟩ := List.mem_map.mp hr
  cases hb : (row_name r0 == some "form_category") with
  | true =>
    rw [hb] at heq
    simp only [if_true] at heq
    rw [← heq]
    exact row_get_set_cell_self r0 "calculation" (once_expr cat)
  | false =>
    rw [hb] at heq
    simp only [Bool.false_eq_true, if_false] at heq
    rw [← heq] at hname
    rw [hname] at hb
    simp at hb

/-- C10: for every assembly whose form_category ends in s and whose merged survey
contains a row named form_category, every such row of the output survey sheet has
its calculation set to the literal once(...) wrapper around the quoted singularized
category, and every row of the output settings sheet has form_title equal to the
singularized category. -/
theorem C10_singularization_theorem (tpl : Templates) (custom : Form)
    (form_category : String) (es : List String) (eid : Option String)
    (fid now : String)
    (hs : ends_with form_category "s" = true)
    (hes : ∀ e ∈ es, e ≠ "form_category")
    (hfc : (merged_survey tpl custom).rows.any
        (fun r => row_name r == some "form_category") = true)
    (hok : run_ok (append_mandatory_fields tpl custom form_category es eid fid now)
        = true) :
    (∀ r ∈ sheet_rows (out_form (append_mandatory_fields tpl custom form_category es
        eid fid now)) "survey",
      row_name r = some "form_category" →
        row_get r "calculation" = some (once_expr (drop_last_char form_category)))
    ∧ (∀ r ∈ sheet_rows (out_form (append_mandatory_fields tpl custom form_category es
        eid fid now)) "settings",
      row_get r "form_title" = some (drop_last_char form_category)) := by
  unfold append_mandatory_fields at hok ⊢
  by_cases h1 : (get_sheet custom "survey").isNone
  · rw [if_pos h1] at hok
    exact absurd hok (by simp [run_ok])
  · rw [if_neg h1] at hok ⊢
    dsimp only at hok ⊢
    rw [if_pos hs] at hok ⊢
    cases hins : insert_entities (stamp_form_category (merged_survey tpl custom)
        (drop_last_char form_category)) es with
    | error e =>
      rw [hins] at hok
      exact absurd hok (by simp [run_ok])
    | ok survey2 =>
      constructor
      · simp only [out_form, sheet_rows]
        rw [get_sheet_final_survey]
        simp only [Option.getD_some]
        exact insert_entities_preserves_calc (once_expr (drop_last_char form_category))
          es hes _ survey2
          (stamp_form_category_calc (merged_survey tpl custom)
            (drop_last_char form_category) hfc) hins
      · simp only [out_form, sheet_rows]
        rw [get_sheet_final_settings]
        simp only [Option.getD_some]
        exact stamp_settings_form_title tpl.settings_df now (eid.getD fid)
          (drop_last_char form_category)

/-- C10 witness: the theorem at the concrete run — calculation once(building) with
single quotes, and form_title building. -/
theorem C10_singularization_witness :
    (ends_with "buildings" "s" = true)
    ∧ (∀ r ∈ sheet_rows (out_form run_two_entities) "survey",
        row_name r = some "form_category" →
          row_get r "calculation" = some (once_expr (drop_last_char "buildings")))
    ∧ (∀ r ∈ sheet_rows (out_form run_two_entities) "settings",
        row_get r "form_title" = some (drop_last_char "buildings")) :=
  ⟨by decide,
    (C10_singularization_theorem example_templates example_form "buildings"
      ["roads", "waterpoints"] none "form-id-1" "2026-01-01 00:00:00"
      (by decide) (by decide) (by decide) (by decide)).1,
    (C10_singularization_theorem example_templates example_form "buildings"
      ["roads", "waterpoints"] none "form-id-1" "2026-01-01 00:00:00"
      (by decide) (by decide) (by decide) (by decide)).2⟩

/-- C6 witness: the amended theorem at the concrete group name and entity name. -/
theorem C6_label_languages_witness :
    row_get (((create_survey_group "survey_questions").1.rows).headD [])
        "label::english(en)" = some "survey_questions"
    ∧ row_get ((additional_row "roads").rows.headD []) "appearance" = some "map" :=
  ⟨( C6_label_languages_theorem "survey_questions" "roads").1.1,
   ( C6_label_languages_theorem "survey_questions" "roads").2.1.2.2.1⟩
